import Mathlib

/-!
Verification of the enaml declarative-UI language front end
(src/enaml/core/parser.py) against its natural-language specification.

The parser is a ply.yacc grammar whose semantic actions build two tree
families: Python ast nodes (the embedded expression language) and
enaml_ast nodes (the declarative layer).  Python ast objects live in one
dynamically-typed universe, so they are embedded here as a single
inductive type PExpr whose constructors mirror the ast node classes the
grammar actions build; a constructor tokVal embeds a raw token string
that a buggy action stores into a node slot.  The enaml_ast module,
lexer and exceptions modules are not present under src/ and are
modelled from the spec where needed; every such definition is marked
in its doc comment.
-/

namespace Enaml

/-- The ast expression-context values Load / Store / Param. -/
inductive Ctx where
  | load
  | store
  | param
deriving DecidableEq

/-- Binary operator kinds of the ast BinOp node. -/
inductive BinOpKind where
  | bitOr
  | bitXor
  | bitAnd
  | lshift
  | rshift
  | add
  | sub
  | mult
  | div
  | mod
  | floorDiv
  | pow
deriving DecidableEq

/-- Boolean operator kinds of the ast BoolOp node. -/
inductive BoolOpKind where
  | andK
  | orK
deriving DecidableEq

/-- Unary operator kinds of the ast UnaryOp node. -/
inductive UnaryOpKind where
  | notK
  | uadd
  | usub
  | invert
deriving DecidableEq

/-- Comparison operator kinds of the ast Compare node. -/
inductive CmpOpKind where
  | lt
  | gt
  | eq
  | gtE
  | ltE
  | notEq
  | inK
  | notIn
  | isK
  | isNot
deriving DecidableEq

/-- The universe of Python ast objects the grammar actions build.  The
constructors mirror the ast classes used in src/enaml/core/parser.py:
expression nodes (Name, Num, Str, Tuple, List, Dict, Set, BinOp,
BoolOp, UnaryOp, Compare, IfExp, Lambda, Call, Attribute, Subscript,
GeneratorExp, ListComp, SetComp, DictComp, Yield) and subscript nodes
(Ellipsis, Index, Slice, ExtSlice).  Python objects are dynamically
typed, so all node classes share this one universe, exactly as any
Python object may sit in any node slot.  The slice constructor records
for each of its keyword slots (lower, upper, and the misspelled uppper
that two grammar actions pass, and step) whether the attribute was
passed at all (outer Option) and, if so, whether its value was the
Python constant None or an expression node (inner Option); Python ast
constructors silently accept unknown keyword names and leave unnamed
fields entirely unset, which is what makes the distinction observable.
tokVal embeds a raw token string stored into a node slot by a grammar
action (Python happily stores a str object where a node is expected). -/
inductive PExpr where
  | name (id : String) (ctx : Ctx)
  | num (n : Int)
  | strE (s : String)
  | tupleE (elts : List PExpr) (ctx : Ctx)
  | listE (elts : List PExpr) (ctx : Ctx)
  | dictE (keys : List PExpr) (values : List PExpr)
  | setE (elts : List PExpr)
  | binOp (left : PExpr) (op : BinOpKind) (right : PExpr)
  | boolOp (op : BoolOpKind) (values : List PExpr)
  | unaryOp (op : UnaryOpKind) (operand : PExpr)
  | compare (left : PExpr) (ops : List CmpOpKind) (comparators : List PExpr)
  | ifExp (body : PExpr) (test : PExpr) (orelse : PExpr)
  | lambdaE (body : PExpr)
  | callE (func : Option PExpr) (args : List PExpr)
  | attribute (value : Option PExpr) (attr : String) (ctx : Ctx)
  | subscriptE (value : Option PExpr) (sliceArg : Option PExpr) (ctx : Ctx)
  | generatorExp (elt : PExpr)
  | listComp (elt : PExpr)
  | setComp (elt : PExpr)
  | dictComp (key : PExpr) (value : PExpr)
  | yieldE
  | ellipsisE
  | indexS (value : PExpr)
  | sliceS (lower : Option (Option PExpr)) (upper : Option (Option PExpr))
      (uppper : Option (Option PExpr)) (step : Option (Option PExpr))
  | extSliceS (dims : List PExpr)
  | tokVal (s : String)

/-- The error values the parsing code can raise.  enamlSyntaxError is
the EnamlSyntaxError exception raised with a bare message string;
enamlSyntaxErrorLoc is the structured error raised through the
raise_syntax_error helper of the lexer module, carrying message,
filename and line number.  The remaining constructors embed the other
Python exception classes the parser code can raise. -/
inductive ParseError where
  | enamlSyntaxError (msg : String)
  | enamlSyntaxErrorLoc (msg : String) (filename : String) (lineno : Int)
  | systemError (msg : String)
  | typeError (msg : String)
  | indexError (msg : String)
  | assertionError (msg : String)
  | syntaxError (msg : String)
deriving DecidableEq

/-- The filename carried by an error value, if the error value has a
filename field at all. -/
def ParseError.filenameOf : ParseError → Option String
  | .enamlSyntaxErrorLoc _ f _ => some f
  | _ => none

/-- The line number carried by an error value, if the error value has a
line-number field at all. -/
def ParseError.linenoOf : ParseError → Option Int
  | .enamlSyntaxErrorLoc _ _ l => some l
  | _ => none

/-- Modelled from the spec: raise_syntax_error lives in
src/enaml/core/lexer.py, which is absent from src/.  Per the spec all
diagnostics raised through it are a single structured failure value
carrying filename, line and a human-readable message. -/
def raise_syntax_error (msg : String) (filename : String) (lineno : Int) : ParseError :=
  .enamlSyntaxErrorLoc msg filename lineno

/-- raise_enaml_syntax_error from parser.py: appends the line number to
the message text and raises EnamlSyntaxError with that message only. -/
def raise_enaml_syntax_error (msg : String) (lineno : Int) : ParseError :=
  .enamlSyntaxError (msg ++ " - lineno (" ++ toString lineno ++ ")")

/-- True exactly when an Except value is a success. -/
def exceptOk {α : Type} : Except ParseError α → Bool
  | .ok _ => true
  | .error _ => false

/-- The disallowed_store table of parser.py: maps the ast node classes
disallowed in a store context to the message tag used for error
reporting; node classes not in the table map to none. -/
def disallowed_store : PExpr → Option String
  | .lambdaE _ => some "lambda"
  | .callE _ _ => some "function call"
  | .boolOp _ _ => some "operator"
  | .binOp _ _ _ => some "operator"
  | .unaryOp _ _ => some "operator"
  | .generatorExp _ => some "generator expression"
  | .yieldE => some "yield expression"
  | .listComp _ => some "list comprehension"
  | .setComp _ => some "set comprehension"
  | .dictComp _ _ => some "dict comprehension"
  | .dictE _ _ => some "literal"
  | .setE _ => some "literal"
  | .num _ => some "literal"
  | .strE _ => some "literal"
  | .ellipsisE => some "Ellipsis"
  | .compare _ _ _ => some "comparison"
  | .ifExp _ _ _ => some "conditional expression"
  | _ => none

mutual

/-- set_store_ctxt of parser.py, as a pure transform: sets the context
of the node to Store, recursing into the elements of Tuple and List
nodes.  An empty Tuple errors with the tag (); a node class in the
disallowed_store table errors with its tag; any other node class falls
into the final else branch, whose source interpolates the class name
into a percent-d format slot, so the interpolation itself raises a
TypeError before the intended SystemError is built. -/
def set_store_ctxt : PExpr → Except ParseError PExpr
  | .name id _ => .ok (.name id .store)
  | .attribute v a _ => .ok (.attribute v a .store)
  | .subscriptE v s _ => .ok (.subscriptE v s .store)
  | .tupleE elts _ =>
      if elts.length = 0 then
        .error (.enamlSyntaxError "can\x27t assign to ()")
      else
        match set_store_ctxt_list elts with
        | .error e => .error e
        | .ok elts2 => .ok (.tupleE elts2 .store)
  | .listE elts _ =>
      match set_store_ctxt_list elts with
      | .error e => .error e
      | .ok elts2 => .ok (.listE elts2 .store)
  | other =>
      match disallowed_store other with
      | some tag => .error (.enamlSyntaxError ("can\x27t assign to " ++ tag))
      | none => .error (.typeError "percent-d format applied to a class name")

/-- The recursion of set_store_ctxt over the items of a Tuple or List
node, propagating the first error in element order. -/
def set_store_ctxt_list : List PExpr → Except ParseError (List PExpr)
  | [] => .ok []
  | x :: xs =>
      match set_store_ctxt x with
      | .error e => .error e
      | .ok x2 =>
          match set_store_ctxt_list xs with
          | .error e => .error e
          | .ok xs2 => .ok (x2 :: xs2)

end

mutual

/-- The set of assignment-target shapes the spec says are accepted:
bare name, attribute access, subscript, and list or tuple aggregates of
such shapes, recursing into their elements, with the empty tuple
rejected.  This definition follows the words of the spec and is
compared against the behaviour of set_store_ctxt, which is translated
from the source. -/
def spec_allowed_target : PExpr → Bool
  | .name _ _ => true
  | .attribute _ _ _ => true
  | .subscriptE _ _ _ => true
  | .tupleE elts _ => !elts.isEmpty && spec_allowed_list elts
  | .listE elts _ => spec_allowed_list elts
  | _ => false

/-- Conjunction of spec_allowed_target over a list of elements. -/
def spec_allowed_list : List PExpr → Bool
  | [] => true
  | x :: xs => spec_allowed_target x && spec_allowed_list xs

end

/-- The operator_table of parser.py: the translation table for the
expression-operator characters. -/
def operator_table : Char → Option String
  | '=' => some "Equal"
  | '<' => some "Less"
  | '>' => some "Greater"
  | ':' => some "Colon"
  | _ => none

/-- The character-by-character join inside translate_operator; a
character absent from operator_table raises a KeyError in the source,
embedded here as none. -/
def translate_chars : List Char → Option String
  | [] => some ""
  | c :: cs =>
      match operator_table c with
      | none => none
      | some n =>
          match translate_chars cs with
          | none => none
          | some rest => some (n ++ rest)

/-- translate_operator of parser.py: converts a symbolic operator into
a string of the form double-underscore operator underscore name
double-underscore, where name is the join of the per-character
translations from operator_table. -/
def translate_operator (op : String) : Option String :=
  (translate_chars op.toList).map (fun n => "__operator_" ++ n ++ "__")

/-- Statements of the embedded expression language built by the parser;
only the forms the claims exercise are carried. -/
inductive Stmt where
  | assign (targets : List PExpr) (value : PExpr) (lineno : Int)
  | exprStmt (value : PExpr)

/-- The payload of an enaml_ast.Python node: either an ast.Expression
wrapping one expression, or an ast.Module wrapping statements. -/
inductive PyAstBody where
  | expression (body : PExpr)
  | moduleStmts (body : List Stmt)

/-- Modelled from the spec: enaml_ast.Python (enaml_ast.py is absent
from src/) is a thin wrapper carrying an embedded-language sub-tree
plus the line number at which it starts. -/
structure PythonNode where
  ast : PyAstBody
  lineno : Int

/-- Modelled from the spec: enaml_ast.BoundExpression carries a
binding-kind identifier, an embedded expression sub-tree and a line
number. -/
structure BoundExpression where
  binder : String
  expr : PythonNode
  lineno : Int

/-- Modelled from the spec: enaml_ast.AttributeBinding carries an
attribute name, a BoundExpression and a line number. -/
structure AttributeBinding where
  name : String
  binding : BoundExpression
  lineno : Int

/-- Modelled from the spec: enaml_ast.AttributeDeclaration carries the
attribute name, an optional type expression node, an optional default
binding, a flag distinguishing a plain attribute from an event, and a
line number. -/
structure AttributeDeclaration where
  name : String
  typeExpr : Option PythonNode
  default : Option AttributeBinding
  is_event : Bool
  lineno : Int

mutual

/-- Modelled from the spec: enaml_ast.Instantiation carries the type
name being instantiated, an optional identifier, body items and a line
number. -/
inductive Instantiation where
  | mk (name : String) (identifier : Option String)
      (body : List InstBodyItem) (lineno : Int)

/-- A body item of an Instantiation: a nested instantiation or an
attribute binding. -/
inductive InstBodyItem where
  | inst (i : Instantiation)
  | binding (b : AttributeBinding)

end

/-- The line number of an Instantiation. -/
def Instantiation.lineno : Instantiation → Int
  | .mk _ _ _ l => l

/-- A body item of a Declaration: an attribute declaration, an
attribute binding or a nested instantiation. -/
inductive DeclBodyItem where
  | attrDecl (a : AttributeDeclaration)
  | binding (b : AttributeBinding)
  | inst (i : Instantiation)

/-- Modelled from the spec: enaml_ast.Declaration carries the name of
the new declarative type, a base-type expression node, an optional
identifier, an optional docstring, body items and a line number. -/
structure Declaration where
  name : String
  base : PythonNode
  identifier : Option String
  doc : String
  body : List DeclBodyItem
  lineno : Int

/-- A module item: an import or raw block (a Python node) or a
declaration. -/
inductive ModuleItem where
  | python (p : PythonNode)
  | declaration (d : Declaration)

/-- Modelled from the spec: enaml_ast.Module carries an optional
docstring, an ordered sequence of module items and a line number. -/
structure Module where
  doc : String
  body : List ModuleItem
  lineno : Int

/-- Grammar action p_enaml2 of parser.py, for an input consisting of
only a NEWLINE and the end marker, or only the end marker: builds
Module with empty docstring, no items and line number -1. -/
def p_enaml2 : Module :=
  { doc := "", body := [], lineno := -1 }

/-- Grammar action p_enaml3, for an input consisting of a single STRING
followed by NEWLINE and the end marker: builds Module with the string
as docstring, no items and line number -1. -/
def p_enaml3 (s : String) : Module :=
  { doc := s, body := [], lineno := -1 }

/-- Grammar action p_enaml_module1: wraps a module body into a Module
with empty docstring and line number -1. -/
def p_enaml_module1 (body : List ModuleItem) : Module :=
  { doc := "", body := body, lineno := -1 }

/-- Grammar action p_enaml_module2: wraps a leading docstring and a
module body into a Module with line number -1. -/
def p_enaml_module2 (s : String) (body : List ModuleItem) : Module :=
  { doc := s, body := body, lineno := -1 }

/-- Grammar action p_declaration: builds a Declaration from the
declared name, the base name (wrapped as a Python expression node at
the same line), the body triple of docstring, identifier and items,
and the line number of the leading NAME token. -/
def p_declaration (name baseName : String)
    (body : String × Option String × List DeclBodyItem) (lineno : Int) :
    Declaration :=
  let baseNode : PythonNode :=
    { ast := .expression (.name baseName .load), lineno := lineno }
  { name := name, base := baseNode, identifier := body.2.1, doc := body.1,
    body := body.2.2, lineno := lineno }

/-- Grammar action p_instantiation: builds an Instantiation from the
type name, the body pair of identifier and items, and the line number
of the leading NAME token. -/
def p_instantiation (name : String)
    (body : Option String × List InstBodyItem) (lineno : Int) :
    Instantiation :=
  .mk name body.1 body.2 lineno

/-- Grammar action p_attribute_binding: builds an AttributeBinding at
the line number of the leading NAME token. -/
def p_attribute_binding (name : String) (b : BoundExpression)
    (lineno : Int) : AttributeBinding :=
  { name := name, binding := b, lineno := lineno }

/-- The four single-line binding operator tokens admitted by grammar
rule p_binding1: EQUAL, COLONEQUAL, LEFTSHIFT and RIGHTSHIFT. -/
inductive InlineBindingTok where
  | equal
  | colonEqual
  | leftShift
  | rightShift
deriving DecidableEq

/-- Modelled from the spec: the lexer (absent from src/) gives each
operator token its source text as the token value, which is what the
grammar actions read from the production slot. -/
def InlineBindingTok.text : InlineBindingTok → String
  | .equal => "="
  | .colonEqual => ":="
  | .leftShift => "<<"
  | .rightShift => ">>"

/-- Grammar action p_binding1: translates the binding operator token
and wraps the expression in a Python node tagged with the operator
token line.  The translate_operator call propagates as none when the
operator has an untranslatable character. -/
def p_binding1 (tok : InlineBindingTok) (test : PExpr) (lineno : Int) :
    Option BoundExpression :=
  (translate_operator tok.text).map fun op =>
    { binder := op,
      expr := { ast := .expression test, lineno := lineno },
      lineno := lineno }

/-- Grammar action p_binding2, for the DOUBLECOLON operator followed by
a single statement line; the DOUBLECOLON token text is the two-colon
string. -/
def p_binding2 (stmt : Stmt) (lineno : Int) : Option BoundExpression :=
  (translate_operator "::").map fun op =>
    { binder := op,
      expr := { ast := .moduleStmts [stmt], lineno := lineno },
      lineno := lineno }

/-- Grammar action p_binding3, for the DOUBLECOLON operator followed by
an indented suite of statement lines. -/
def p_binding3 (stmts : List Stmt) (lineno : Int) : Option BoundExpression :=
  (translate_operator "::").map fun op =>
    { binder := op,
      expr := { ast := .moduleStmts stmts, lineno := lineno },
      lineno := lineno }

/-- build_attr_declaration of parser.py: raises a syntax error through
raise_syntax_error when the leading keyword is neither attr nor event,
and otherwise builds an AttributeDeclaration whose event flag is false
for attr and true for event, passing name, type node, default binding
and line number through unchanged. -/
def build_attr_declaration (kw name : String)
    (type_node : Option PythonNode) (default : Option AttributeBinding)
    (lineno : Int) (filename : String) :
    Except ParseError AttributeDeclaration :=
  if ¬(kw = "attr" ∨ kw = "event") then
    .error (raise_syntax_error
      ("Expected keyword \x27attr\x27 or \x27event\x27, got \x27" ++ kw
        ++ "\x27 instead.") filename lineno)
  else if kw = "attr" then
    .ok { name := name, typeExpr := type_node, default := default,
          is_event := false, lineno := lineno }
  else
    .ok { name := name, typeExpr := type_node, default := default,
          is_event := true, lineno := lineno }

/-- The keyword-argument call ast.Slice(...).  Python ast constructors
accept arbitrary keyword names, setting each given name as an
attribute: a name not in the keyword list is left entirely unset, and
a misspelled name such as uppper lands as a spurious attribute.  Each
keyword value is either the Python constant None (inner none) or an
expression node. -/
def astSlice (kwargs : List (String × Option PExpr)) : PExpr :=
  let find := fun (k : String) =>
    (kwargs.find? (fun kv => kv.1 == k)).map Prod.snd
  .sliceS (find "lower") (find "upper") (find "uppper") (find "step")

/-- Grammar action p_subscript1, rule subscript : ELLIPSIS. -/
def p_subscript1 : PExpr := .ellipsisE

/-- Grammar action p_subcript2 (name as misspelled in the source),
rule subscript : test. -/
def p_subcript2 (t : PExpr) : PExpr := .indexS t

/-- Grammar action p_subscript3, rule subscript : COLON. -/
def p_subscript3 : PExpr :=
  astSlice [("lower", none), ("upper", none), ("step", none)]

/-- Grammar action p_subscript4, rule subscript : DOUBLECOLON; the step
is the Name node None. -/
def p_subscript4 : PExpr :=
  astSlice [("lower", none), ("upper", none),
    ("step", some (.name "None" .load))]

/-- Grammar action p_subscript5, rule subscript : test COLON.  The
source passes the misspelled keyword uppper, so the upper attribute is
never set on the node. -/
def p_subscript5 (t : PExpr) : PExpr :=
  astSlice [("lower", some t), ("uppper", none), ("step", none)]

/-- Grammar action p_subscrip6 (name as misspelled in the source),
rule subscript : test DOUBLECOLON. -/
def p_subscrip6 (t : PExpr) : PExpr :=
  astSlice [("lower", some t), ("upper", none),
    ("step", some (.name "None" .load))]

/-- Grammar action p_subscript7, rule subscript : COLON test. -/
def p_subscript7 (t : PExpr) : PExpr :=
  astSlice [("lower", none), ("upper", some t), ("step", none)]

/-- Grammar action p_subscript8, rule subscript : COLON test COLON. -/
def p_subscript8 (t : PExpr) : PExpr :=
  astSlice [("lower", none), ("upper", some t),
    ("step", some (.name "None" .load))]

/-- Grammar action p_subscript9, rule subscript : DOUBLECOLON test. -/
def p_subscript9 (t : PExpr) : PExpr :=
  astSlice [("lower", none), ("upper", none), ("step", some t)]

/-- Grammar action p_subscript10, rule subscript : test COLON test.
The source passes the misspelled keyword uppper with the upper bound,
so the bound lands in the spurious uppper attribute and the upper
attribute is never set. -/
def p_subscript10 (x y : PExpr) : PExpr :=
  astSlice [("lower", some x), ("uppper", some y), ("step", none)]

/-- Grammar action p_subscript11, rule subscript : test COLON test
COLON. -/
def p_subscript11 (x y : PExpr) : PExpr :=
  astSlice [("lower", some x), ("upper", some y),
    ("step", some (.name "None" .load))]

/-- Grammar action p_subscript12, rule subscript : COLON test COLON
test. -/
def p_subscript12 (x y : PExpr) : PExpr :=
  astSlice [("lower", none), ("upper", some x), ("step", some y)]

/-- Grammar action p_subscript13, rule subscript : test COLON test
COLON test; this action spells upper correctly. -/
def p_subscript13 (x y z : PExpr) : PExpr :=
  astSlice [("lower", some x), ("upper", some y), ("step", some z)]

/-- Grammar action p_subscript14, rule subscript : test DOUBLECOLON
test. -/
def p_subscript14 (x y : PExpr) : PExpr :=
  astSlice [("lower", some x), ("upper", none), ("step", some y)]

/-- Whether a node built by a subscript action carries the spurious
uppper attribute. -/
def hasUppper : PExpr → Bool
  | .sliceS _ _ (some _) _ => true
  | _ => false

/-- The upper attribute of a slice node: none when the attribute was
never set, some v when it was set to v. -/
def sliceUpper : PExpr → Option (Option PExpr)
  | .sliceS _ u _ _ => u
  | _ => none

/-- Grammar action p_xor_expr2, rule xor_expr : and_expr
xor_expr_list: folds the operator list onto the left operand, exactly
the loop building BinOp nodes left to right. -/
def p_xor_expr2 (left : PExpr) (lst : List (BinOpKind × PExpr)) : PExpr :=
  lst.foldl (fun node pr => .binOp node pr.1 pr.2) left

/-- Grammar action p_xor_expr_list1, rule xor_expr_list : CIRCUMFLEX
and_expr.  The source builds the pair from ast.BitXor() and production
slot 1, which is the CIRCUMFLEX token text, not slot 2 (the and_expr
value, which the action ignores); the raw token string is embedded as
tokVal. -/
def p_xor_expr_list1 (circumflexTok : String) (_e : PExpr) :
    List (BinOpKind × PExpr) :=
  [(.bitXor, .tokVal circumflexTok)]

/-- Grammar action p_xor_expr_list2, rule xor_expr_list :
xor_expr_list CIRCUMFLEX and_expr; this action reads slot 3
correctly. -/
def p_xor_expr_list2 (lst : List (BinOpKind × PExpr)) (e : PExpr) :
    List (BinOpKind × PExpr) :=
  lst ++ [(.bitXor, e)]

/-- Grammar action p_and_expr2, rule and_expr : shift_expr
and_expr_list: the same left fold of BinOp nodes. -/
def p_and_expr2 (left : PExpr) (lst : List (BinOpKind × PExpr)) : PExpr :=
  lst.foldl (fun node pr => .binOp node pr.1 pr.2) left

/-- Grammar action p_and_expr_list1, rule and_expr_list : AMPER
shift_expr.  The source reads production slot 3, but this production
has only slots 0 through 2, so the ply production object raises an
IndexError from its slice list before any pair is built. -/
def p_and_expr_list1 (_amperTok : String) (_e : PExpr) :
    Except ParseError (List (BinOpKind × PExpr)) :=
  .error (.indexError "list index out of range")

/-- The derivation of the expression a-circumflex-b: the two operands
reduce through the atom chain unchanged, xor_expr_list reduces by
p_xor_expr_list1 with the CIRCUMFLEX token text in slot 1, and
xor_expr reduces by p_xor_expr2. -/
def parse_xor_pair (a b : PExpr) : PExpr :=
  p_xor_expr2 a (p_xor_expr_list1 "^" b)

/-- The derivation of the expression a-ampersand-b: and_expr_list
reduces by p_and_expr_list1 with the AMPER token text in slot 1, and
on success and_expr would reduce by p_and_expr2. -/
def parse_and_pair (a b : PExpr) : Except ParseError PExpr :=
  match p_and_expr_list1 "&" b with
  | .error e => .error e
  | .ok lst => .ok (p_and_expr2 a lst)

/-- Sets the ctx attribute of a node to Load, as the statement actions
do before using a right-hand side; on node classes without a ctx field
Python merely records an unused attribute, which the embedding
drops. -/
def set_load_ctx : PExpr → PExpr
  | .name i _ => .name i .load
  | .attribute v a _ => .attribute v a .load
  | .subscriptE v s _ => .subscriptE v s .load
  | .tupleE e _ => .tupleE e .load
  | .listE e _ => .listE e .load
  | e => e

/-- Grammar action p_expr_stmt2, rule expr_stmt : testlist EQUAL
testlist: validates every left-hand-side item through set_store_ctxt,
wraps a multi-item right-hand side in a Load tuple, and builds an
Assign statement at the line of the EQUAL token.  An empty right-hand
side would index past the list as in the source. -/
def p_expr_stmt2 (lhs : List PExpr) (lineno : Int) (rhs : List PExpr) :
    Except ParseError Stmt :=
  match set_store_ctxt_list lhs with
  | .error e => .error e
  | .ok lhs2 =>
      if rhs.length > 1 then
        .ok (.assign lhs2 (.tupleE rhs .load) lineno)
      else
        match rhs with
        | [] => .error (.indexError "list index out of range")
        | r :: _ => .ok (.assign lhs2 (set_load_ctx r) lineno)

/-- The ast.keyword node built for a keyword argument. -/
structure KeywordArg where
  arg : String
  value : PExpr

/-- Grammar action p_argument3, rule argument : test EQUAL test: the
source asserts that the left test is a Name node, so any other node
class fails with a bare AssertionError; on a Name it builds the
keyword node from the id. -/
def p_argument3 (arg value : PExpr) : Except ParseError KeywordArg :=
  match arg with
  | .name id _ => .ok { arg := id, value := value }
  | _ => .error (.assertionError "Keyword arg must be a Name.")

/-- The position of the first bad line in a list of source lines,
1-based, where badness is an arbitrary per-line predicate standing for
a line the embedded-language parser rejects. -/
def firstBadLine (bad : String → Bool) : List String → Option Nat
  | [] => none
  | l :: ls =>
      if bad l then some 1
      else (firstBadLine bad ls).map (· + 1)

/-- Modelled from the spec: ast.parse is the external embedded-language
parser; on a syntax error it reports the 1-based line number, within
the text it was handed, of the first offending line.  An empty line is
never a syntax error of the embedded language, which is the premise
the bad predicate must satisfy. -/
def py_parse_err_lineno (bad : String → Bool) (lines : List String) :
    Option Nat :=
  firstBadLine bad lines

/-- Grammar action p_enaml_raw_python, rule raw_python :
PY_BLOCK_START NEWLINE PY_BLOCK PY_BLOCK_END NEWLINE: prepends as many
newlines as the line number of the block-start token before handing
the block text to the embedded parser, so that reported error lines
are file coordinates; a reported error is re-raised through
raise_syntax_error with that line; on success the Python node carries
the block-start line.  The block text is carried as its list of lines,
and prepending k newlines prepends k empty lines. -/
def p_enaml_raw_python (bad : String → Bool) (startLineno : Nat)
    (blockLines : List String) (filename : String) :
    Except ParseError PythonNode :=
  let compileLines := List.replicate startLineno "" ++ blockLines
  match py_parse_err_lineno bad compileLines with
  | some l => .error (raise_syntax_error "invalid syntax" filename (Int.ofNat l))
  | none => .ok { ast := .moduleStmts [], lineno := Int.ofNat startLineno }

/-- The three trivial source forms of the end-to-end scenario: empty
source, a single newline, and a lone module docstring. -/
inductive TrivialSource where
  | empty
  | newlineOnly
  | docstring (s : String)

/-- Modelled from the spec: the lexer (absent from src/) turns an empty
source into just the end marker, a newline-only source into NEWLINE
then the end marker, and a docstring-only source into STRING, NEWLINE
and the end marker; the first two token streams are the two
alternatives of grammar rule p_enaml2 and the third is rule p_enaml3,
so the parse dispatches to those actions. -/
def parse_trivial : TrivialSource → Module
  | .empty => p_enaml2
  | .newlineOnly => p_enaml2
  | .docstring s => p_enaml3 s

mutual

/-- Success of set_store_ctxt coincides with membership in the
spec-described class of assignment targets. -/
theorem set_store_ctxt_ok_eq (e : PExpr) :
    exceptOk (set_store_ctxt e) = spec_allowed_target e := by
  cases e
  case tupleE elts c =>
    cases elts with
    | nil => rfl
    | cons x xs =>
        have h := set_store_ctxt_list_ok_eq (x :: xs)
        simp only [set_store_ctxt, spec_allowed_target, List.length_cons,
          List.isEmpty_cons, Bool.not_false, Bool.true_and]
        rw [← h]
        simp only [Nat.succ_ne_zero, if_false]
        cases set_store_ctxt_list (x :: xs) <;> rfl
  case listE elts c =>
    have h := set_store_ctxt_list_ok_eq elts
    simp only [set_store_ctxt, spec_allowed_target]
    rw [← h]
    cases set_store_ctxt_list elts <;> rfl
  all_goals rfl
termination_by sizeOf e

/-- Success of the element recursion coincides with every element being
an allowed target. -/
theorem set_store_ctxt_list_ok_eq (l : List PExpr) :
    exceptOk (set_store_ctxt_list l) = spec_allowed_list l := by
  cases l with
  | nil => rfl
  | cons x xs =>
      have hx := set_store_ctxt_ok_eq x
      have hxs := set_store_ctxt_list_ok_eq xs
      simp only [set_store_ctxt_list, spec_allowed_list]
      rw [← hx, ← hxs]
      cases set_store_ctxt x <;> cases set_store_ctxt_list xs <;> rfl
termination_by sizeOf l

end

/-- C1: set_store_ctxt accepts exactly bare names, attribute accesses,
subscripts, and list or tuple aggregates of such shapes, recursing
into their elements and setting each to store context; every other
shape is rejected with a message naming the construct, with the empty
tuple named (); in particular attribute, subscript, tuple and list
targets are accepted through the assignment rule while function call,
lambda, dict literal, empty tuple, comparison, generator expression
and conditional expression targets are rejected. -/
theorem set_store_ctxt_accepts_exactly_allowed :
    (∀ e, exceptOk (set_store_ctxt e) = spec_allowed_target e)
    ∧ set_store_ctxt (.attribute (some (.name "a" .load)) "b" .load)
        = .ok (.attribute (some (.name "a" .load)) "b" .store)
    ∧ set_store_ctxt
          (.subscriptE (some (.name "a" .load)) (some (.indexS (.num 0))) .load)
        = .ok (.subscriptE (some (.name "a" .load)) (some (.indexS (.num 0))) .store)
    ∧ set_store_ctxt (.tupleE [.name "a" .load, .name "b" .load] .load)
        = .ok (.tupleE [.name "a" .store, .name "b" .store] .store)
    ∧ set_store_ctxt (.listE [.name "a" .load, .name "b" .load] .load)
        = .ok (.listE [.name "a" .store, .name "b" .store] .store)
    ∧ set_store_ctxt (.callE (some (.name "f" .load)) [])
        = .error (.enamlSyntaxError "can\x27t assign to function call")
    ∧ set_store_ctxt (.lambdaE (.num 1))
        = .error (.enamlSyntaxError "can\x27t assign to lambda")
    ∧ set_store_ctxt (.dictE [] [])
        = .error (.enamlSyntaxError "can\x27t assign to literal")
    ∧ set_store_ctxt (.tupleE [] .load)
        = .error (.enamlSyntaxError "can\x27t assign to ()")
    ∧ set_store_ctxt (.compare (.name "a" .load) [.eq] [.num 1])
        = .error (.enamlSyntaxError "can\x27t assign to comparison")
    ∧ set_store_ctxt (.generatorExp (.name "x" .load))
        = .error (.enamlSyntaxError "can\x27t assign to generator expression")
    ∧ set_store_ctxt (.ifExp (.num 1) (.name "c" .load) (.num 2))
        = .error (.enamlSyntaxError "can\x27t assign to conditional expression")
    ∧ exceptOk (p_expr_stmt2 [.attribute (some (.name "a" .load)) "b" .load]
          1 [.num 1]) = true
    ∧ p_expr_stmt2 [.callE (some (.name "f" .load)) []] 1 [.num 1]
        = .error (.enamlSyntaxError "can\x27t assign to function call") :=
  ⟨set_store_ctxt_ok_eq, rfl, rfl, rfl, rfl, rfl, rfl, rfl, rfl, rfl,
   rfl, rfl, rfl, rfl⟩

mutual

/-- Every error value produced by set_store_ctxt carries neither a
filename field nor a line-number field. -/
theorem set_store_ctxt_err_no_loc (e : PExpr) (err : ParseError)
    (h : set_store_ctxt e = .error err) :
    err.filenameOf = none ∧ err.linenoOf = none := by
  cases e
  case tupleE elts c =>
    cases elts with
    | nil =>
        simp [set_store_ctxt] at h
        subst h
        exact ⟨rfl, rfl⟩
    | cons x xs =>
        simp only [set_store_ctxt, List.length_cons, Nat.succ_ne_zero,
          if_false] at h
        cases hsl : set_store_ctxt_list (x :: xs) with
        | error e2 =>
            rw [hsl] at h
            cases h
            exact set_store_ctxt_list_err_no_loc (x :: xs) err hsl
        | ok l2 =>
            rw [hsl] at h
            cases h
  case listE elts c =>
    simp only [set_store_ctxt] at h
    cases hsl : set_store_ctxt_list elts with
    | error e2 =>
        rw [hsl] at h
        cases h
        exact set_store_ctxt_list_err_no_loc elts err hsl
    | ok l2 =>
        rw [hsl] at h
        cases h
  all_goals
    simp [set_store_ctxt, disallowed_store] at h
    try (subst h; exact ⟨rfl, rfl⟩)
termination_by sizeOf e

/-- Every error value produced by the element recursion carries neither
a filename field nor a line-number field. -/
theorem set_store_ctxt_list_err_no_loc (l : List PExpr) (err : ParseError)
    (h : set_store_ctxt_list l = .error err) :
    err.filenameOf = none ∧ err.linenoOf = none := by
  cases l with
  | nil => cases h
  | cons x xs =>
      simp only [set_store_ctxt_list] at h
      cases hx : set_store_ctxt x with
      | error ex =>
          rw [hx] at h
          cases h
          exact set_store_ctxt_err_no_loc x err hx
      | ok x2 =>
          rw [hx] at h
          cases hxs : set_store_ctxt_list xs with
          | error exs =>
              rw [hxs] at h
              cases h
              exact set_store_ctxt_list_err_no_loc xs err hxs
          | ok l2 =>
              rw [hxs] at h
              cases h
termination_by sizeOf l

end

/-- C2: the five binding operator token texts translate to the five
distinct binding-kind identifiers, and every operator token the
binding grammar rules admit translates successfully. -/
theorem translate_operator_binding_kinds :
    translate_operator "=" = some "__operator_Equal__"
    ∧ translate_operator ":=" = some "__operator_ColonEqual__"
    ∧ translate_operator "<<" = some "__operator_LessLess__"
    ∧ translate_operator ">>" = some "__operator_GreaterGreater__"
    ∧ translate_operator "::" = some "__operator_ColonColon__"
    ∧ List.Nodup ["__operator_Equal__", "__operator_ColonEqual__",
        "__operator_LessLess__", "__operator_GreaterGreater__",
        "__operator_ColonColon__"]
    ∧ (∀ tok : InlineBindingTok, ∀ e ln, (p_binding1 tok e ln).isSome)
    ∧ (∀ s ln, (p_binding2 s ln).isSome)
    ∧ (∀ ss ln, (p_binding3 ss ln).isSome) := by
  refine ⟨rfl, rfl, rfl, rfl, rfl, by decide, ?_, ?_, ?_⟩
  · intro tok e ln
    cases tok <;> rfl
  · intro s ln
    rfl
  · intro ss ln
    rfl

/-- C3 (code bug): for the expression a-circumflex-b the xor action
stores the CIRCUMFLEX token text, not the right operand, as the right
child of the BinOp node, and for a-ampersand-b the and action raises
an IndexError instead of building any node, so neither expression
parses to the binary-operation node the specified precedence chain
describes. -/
theorem xor_and_expr_actions_bug :
    parse_xor_pair (.name "a" .load) (.name "b" .load)
      = .binOp (.name "a" .load) .bitXor (.tokVal "^")
    ∧ parse_xor_pair (.name "a" .load) (.name "b" .load)
      ≠ .binOp (.name "a" .load) .bitXor (.name "b" .load)
    ∧ parse_and_pair (.name "a" .load) (.name "b" .load)
      = .error (.indexError "list index out of range") := by
  refine ⟨rfl, ?_, rfl⟩
  intro h
  simp [parse_xor_pair, p_xor_expr2, p_xor_expr_list1] at h

/-- C4 counterexample: assignment-target validation fails with an
error value that carries neither a filename field nor a line-number
field, and keyword-argument validation fails with a bare assertion
failure, so not every failure is a structured error carrying filename
and line number. -/
theorem diagnostics_missing_location_cex :
    set_store_ctxt (.dictE [] [])
      = .error (.enamlSyntaxError "can\x27t assign to literal")
    ∧ ParseError.filenameOf
        (.enamlSyntaxError "can\x27t assign to literal") = none
    ∧ ParseError.linenoOf
        (.enamlSyntaxError "can\x27t assign to literal") = none
    ∧ p_argument3 (.num 1) (.num 2)
      = .error (.assertionError "Keyword arg must be a Name.") :=
  ⟨rfl, rfl, rfl, rfl⟩

/-- C4 amended: errors raised through raise_syntax_error carry
filename, line number and message, but every error raised by
assignment-target validation carries neither filename nor line number,
raise_enaml_syntax_error embeds the line number in the message text
and its error value carries neither field, and keyword-argument
validation fails with a bare assertion error. -/
theorem diagnostics_location_amended :
    (∀ m f l, (raise_syntax_error m f l).filenameOf = some f
      ∧ (raise_syntax_error m f l).linenoOf = some l)
    ∧ (∀ e err, set_store_ctxt e = .error err →
        err.filenameOf = none ∧ err.linenoOf = none)
    ∧ (∀ m l, raise_enaml_syntax_error m l
          = .enamlSyntaxError (m ++ " - lineno (" ++ toString l ++ ")")
      ∧ (raise_enaml_syntax_error m l).filenameOf = none
      ∧ (raise_enaml_syntax_error m l).linenoOf = none)
    ∧ p_argument3 (.num 1) (.num 2)
      = .error (.assertionError "Keyword arg must be a Name.") :=
  ⟨fun _ _ _ => ⟨rfl, rfl⟩, set_store_ctxt_err_no_loc,
   fun _ _ => ⟨rfl, rfl, rfl⟩, rfl⟩

/-- Witness for the amended diagnostics theorem at the dict-literal
assignment target. -/
theorem diagnostics_location_amended_witness :
    ParseError.filenameOf (.enamlSyntaxError "can\x27t assign to literal") = none
    ∧ ParseError.linenoOf (.enamlSyntaxError "can\x27t assign to literal") = none :=
  diagnostics_location_amended.2.1 (.dictE [] [])
    (.enamlSyntaxError "can\x27t assign to literal") rfl

/-- C5 counterexample: the Module node returned for an empty input
carries line number -1, the fixed sentinel, which is not a 1-based
source line number assigned from context. -/
theorem module_lineno_cex :
    p_enaml2.lineno = -1 ∧ ¬(1 ≤ p_enaml2.lineno) :=
  ⟨rfl, by decide⟩

/-- C5 amended: Declaration, Instantiation and AttributeBinding nodes,
and the Python and BoundExpression nodes built by the binding actions,
are constructed with the line number of their source position, but the
Module root is always constructed with the sentinel line number -1,
in every module-building action. -/
theorem module_lineno_amended :
    p_enaml2.lineno = -1
    ∧ (∀ s, (p_enaml3 s).lineno = -1)
    ∧ (∀ b, (p_enaml_module1 b).lineno = -1)
    ∧ (∀ s b, (p_enaml_module2 s b).lineno = -1)
    ∧ (∀ n bn db l, (p_declaration n bn db l).lineno = l
        ∧ (p_declaration n bn db l).base.lineno = l)
    ∧ (∀ n ib l, (p_instantiation n ib l).lineno = l)
    ∧ (∀ n b l, (p_attribute_binding n b l).lineno = l)
    ∧ (∀ tok e l, (p_binding1 tok e l).map BoundExpression.lineno = some l) := by
  refine ⟨rfl, fun _ => rfl, fun _ => rfl, fun _ _ => rfl,
    fun _ _ _ _ => ⟨rfl, rfl⟩, fun _ _ _ => rfl, fun _ _ _ => rfl, ?_⟩
  intro tok e l
  cases tok <;> rfl

/-- C6 counterexample: the action for the slice form with lower, upper
and step all present (rule subscript : test COLON test COLON test,
the form a bracket x colon y colon z) spells upper correctly, stores
the intended bound there and sets no spurious uppper attribute, so
this form is not one of the two misspelled actions; the misspelled
pair is instead the actions for test COLON and test COLON test, as
the test COLON action also shows. -/
theorem slice_uppper_cex :
    p_subscript13 (.num 1) (.num 2) (.num 3)
      = .sliceS (some (some (.num 1))) (some (some (.num 2))) none
          (some (some (.num 3)))
    ∧ hasUppper (p_subscript13 (.num 1) (.num 2) (.num 3)) = false
    ∧ sliceUpper (p_subscript13 (.num 1) (.num 2) (.num 3))
        = some (some (.num 2))
    ∧ hasUppper (p_subscript5 (.num 1)) = true
    ∧ sliceUpper (p_subscript5 (.num 1)) = none :=
  ⟨rfl, rfl, rfl, rfl, rfl⟩

/-- C6 amended: exactly two slice grammar actions pass the misspelled
keyword uppper, namely those for the forms test COLON and test COLON
test; for those two forms the upper attribute of the node is never
set, the bound of the second landing in the spurious uppper attribute,
while every other slice action sets upper correctly. -/
theorem slice_uppper_exactly_two_amended :
    (∀ t, p_subscript5 t
      = .sliceS (some (some t)) none (some none) (some none))
    ∧ (∀ x y, p_subscript10 x y
      = .sliceS (some (some x)) none (some (some y)) (some none))
    ∧ p_subscript3 = .sliceS (some none) (some none) none (some none)
    ∧ p_subscript4 = .sliceS (some none) (some none) none
        (some (some (.name "None" .load)))
    ∧ (∀ t, p_subscrip6 t = .sliceS (some (some t)) (some none) none
        (some (some (.name "None" .load))))
    ∧ (∀ t, p_subscript7 t
      = .sliceS (some none) (some (some t)) none (some none))
    ∧ (∀ t, p_subscript8 t = .sliceS (some none) (some (some t)) none
        (some (some (.name "None" .load))))
    ∧ (∀ t, p_subscript9 t
      = .sliceS (some none) (some none) none (some (some t)))
    ∧ (∀ x y, p_subscript11 x y
      = .sliceS (some (some x)) (some (some y)) none
          (some (some (.name "None" .load))))
    ∧ (∀ x y, p_subscript12 x y
      = .sliceS (some none) (some (some x)) none (some (some y)))
    ∧ (∀ x y z, p_subscript13 x y z
      = .sliceS (some (some x)) (some (some y)) none (some (some z)))
    ∧ (∀ x y, p_subscript14 x y
      = .sliceS (some (some x)) (some none) none (some (some y))) :=
  ⟨fun _ => rfl, fun _ _ => rfl, rfl, rfl, fun _ => rfl, fun _ => rfl,
   fun _ => rfl, fun _ => rfl, fun _ _ => rfl, fun _ _ => rfl,
   fun _ _ _ => rfl, fun _ _ => rfl⟩

/-- Prepending blank lines shifts the reported position of the first
bad line by exactly the number of blank lines, provided a blank line
is never bad. -/
theorem firstBadLine_replicate (bad : String → Bool) (hb : bad "" = false)
    (n : Nat) (ls : List String) :
    firstBadLine bad (List.replicate n "" ++ ls)
      = (firstBadLine bad ls).map (· + n) := by
  induction n with
  | zero =>
      simp only [List.replicate, List.nil_append]
      cases firstBadLine bad ls <;> simp
  | succ k ih =>
      have hstep : firstBadLine bad (List.replicate (k + 1) "" ++ ls)
          = (firstBadLine bad (List.replicate k "" ++ ls)).map (· + 1) := by
        show (if bad "" then some 1
              else (firstBadLine bad (List.replicate k "" ++ ls)).map (· + 1))
            = (firstBadLine bad (List.replicate k "" ++ ls)).map (· + 1)
        rw [hb]
        simp
      rw [hstep, ih]
      cases firstBadLine bad ls <;> rfl

/-- C7: when the embedded-language parser rejects the block at
block-local line k, the raw-python action reports the error at the
block-start line plus k, in file coordinates, for every block and
every starting line. -/
theorem raw_block_error_lineno (bad : String → Bool) (hb : bad "" = false)
    (startLineno k : Nat) (blockLines : List String) (filename : String)
    (h : py_parse_err_lineno bad blockLines = some k) :
    p_enaml_raw_python bad startLineno blockLines filename
      = .error (raise_syntax_error "invalid syntax" filename
          (Int.ofNat (startLineno + k))) := by
  have hshift : py_parse_err_lineno bad
      (List.replicate startLineno "" ++ blockLines)
        = some (k + startLineno) := by
    unfold py_parse_err_lineno at h ⊢
    rw [firstBadLine_replicate bad hb startLineno blockLines, h]
    rfl
  simp only [p_enaml_raw_python, hshift]
  rw [Nat.add_comm k startLineno]

/-- Witness for the raw-block line-number theorem: a block starting at
file line 3 whose second line is bad reports file line 5. -/
theorem raw_block_error_lineno_witness :
    p_enaml_raw_python (fun s => s == "!") 3 ["x", "!"] "test.enaml"
      = .error (raise_syntax_error "invalid syntax" "test.enaml"
          (Int.ofNat (3 + 2))) :=
  raw_block_error_lineno (fun s => s == "!") rfl 3 2 ["x", "!"]
    "test.enaml" rfl

/-- C8: build_attr_declaration accepts exactly the keywords attr and
event, raising a located syntax error that names the offending keyword
and the two expected keywords otherwise; attr yields an event flag of
false and event a flag of true, and the name, type node, default
binding and line number pass through unchanged. -/
theorem build_attr_declaration_spec :
    (∀ n t d l f, build_attr_declaration "attr" n t d l f
      = .ok { name := n, typeExpr := t, default := d,
              is_event := false, lineno := l })
    ∧ (∀ n t d l f, build_attr_declaration "event" n t d l f
      = .ok { name := n, typeExpr := t, default := d,
              is_event := true, lineno := l })
    ∧ (∀ kw n t d l f, kw ≠ "attr" → kw ≠ "event" →
        build_attr_declaration kw n t d l f
          = .error (raise_syntax_error
              ("Expected keyword \x27attr\x27 or \x27event\x27, got \x27"
                ++ kw ++ "\x27 instead.") f l))
    ∧ (∀ kw n t d l f, exceptOk (build_attr_declaration kw n t d l f)
        = (kw == "attr" || kw == "event")) := by
  refine ⟨fun n t d l f => rfl, fun n t d l f => rfl, ?_, ?_⟩
  · intro kw n t d l f h1 h2
    simp [build_attr_declaration, h1, h2]
  · intro kw n t d l f
    by_cases h1 : kw = "attr"
    · simp [build_attr_declaration, h1, exceptOk]
    · by_cases h2 : kw = "event"
      · simp [build_attr_declaration, h1, h2, exceptOk]
      · simp [build_attr_declaration, h1, h2, exceptOk]

/-- Witness for the attribute-declaration theorem at the keyword
foo. -/
theorem build_attr_declaration_spec_witness :
    build_attr_declaration "foo" "x" none none 7 "m.enaml"
      = .error (raise_syntax_error
          "Expected keyword \x27attr\x27 or \x27event\x27, got \x27foo\x27 instead."
          "m.enaml" 7) :=
  build_attr_declaration_spec.2.2.1 "foo" "x" none none 7 "m.enaml"
    (by decide) (by decide)

/-- C10: the empty source, the newline-only source and the
docstring-only source each parse to a Module with no items; the
docstring-only case carries the given docstring and the other two an
empty docstring. -/
theorem trivial_sources_empty_module :
    (parse_trivial .empty).body = [] ∧ (parse_trivial .empty).doc = ""
    ∧ (parse_trivial .newlineOnly).body = []
    ∧ (parse_trivial .newlineOnly).doc = ""
    ∧ (∀ s, (parse_trivial (.docstring s)).body = []
        ∧ (parse_trivial (.docstring s)).doc = s) :=
  ⟨rfl, rfl, rfl, rfl, fun _ => ⟨rfl, rfl⟩⟩

end Enaml
